import Mathlib

/-!
Shallow embedding of the thread-safe logger of `src/src/Logger/logger.c`
(header `include/ayaztub/logger.h`).

C strings are modelled as `List Char`; the `FILE *` sink is an abstract
handle (`Nat`); the registered callback is modelled by whether one is
registered (`Bool`), since only the fact and order of its invocations is
observable here.  Every observable action of the C code (writing a line to
the sink file, invoking the callback, `fclose`, `exit`, and the heap
traffic of `backtrace_symbols`/`free`) is recorded as an `Event`; the
functions return the list of events they perform, in program order,
together with the updated logger state where they mutate it.  The mutex
is not modelled: all claims below are about a single call in isolation,
which the mutex serialises.
-/

/-- The `enum log_level` of `logger.h`, in declaration order:
`LOG_QUITE = 0`, `LOG_FATAL = 1`, ..., `LOG_FULL = 8`. -/
inductive log_level where
  | LOG_QUITE
  | LOG_FATAL
  | LOG_ERROR
  | LOG_TIMEOUT
  | LOG_WARN
  | LOG_INFO
  | LOG_TRACE
  | LOG_DEBUG
  | LOG_FULL
deriving DecidableEq

/-- Numeric value of the C enum constant. -/
def log_level.toNat : log_level → Nat
  | .LOG_QUITE => 0
  | .LOG_FATAL => 1
  | .LOG_ERROR => 2
  | .LOG_TIMEOUT => 3
  | .LOG_WARN => 4
  | .LOG_INFO => 5
  | .LOG_TRACE => 6
  | .LOG_DEBUG => 7
  | .LOG_FULL => 8

/-- The static variables of `logger.c` (the mutex excepted). -/
structure LoggerState where
  log_file : Option Nat
  log_callback : Bool
  current_log_level : log_level
  show_date : Bool
  show_thread : Bool
  log_trace_on_fatal : Bool
deriving DecidableEq

/-- Observable actions performed by the logger.  `heapAlloc`/`heapFree`
record the documented heap traffic of `backtrace_symbols(3)` (its result
array is `malloc`ed) and of `free`. -/
inductive Event where
  | fileWrite (handle : Nat) (text : List Char)
  | callbackCall (lvl : log_level) (colored raw : List Char)
  | closed (handle : Nat)
  | exitCall (code : Nat)
  | heapAlloc
  | heapFree
deriving DecidableEq

def BUFFER_SIZE : Nat := 2048

def EXIT_FAILURE : Nat := 1

def RESET : List Char := "\x1b[0m".data

/-- Model of `log_level_to_string` of `logger.c`. -/
def log_level_to_string : log_level → List Char
  | .LOG_FATAL => "FATAL".data
  | .LOG_ERROR => "ERROR".data
  | .LOG_TIMEOUT => "TIMEOUT".data
  | .LOG_WARN => "WARN".data
  | .LOG_INFO => "INFO".data
  | .LOG_TRACE => "TRACE".data
  | .LOG_DEBUG => "DEBUG".data
  | _ => "UNKNOWN".data

/-- Model of `log_level_to_color` of `logger.c`. -/
def log_level_to_color : log_level → List Char
  | .LOG_FATAL => "\x1b[0;31m".data
  | .LOG_ERROR => "\x1b[0;38:2:220:165:0m".data
  | .LOG_TIMEOUT => "\x1b[0;35m".data
  | .LOG_WARN => "\x1b[0;33m".data
  | .LOG_INFO => "\x1b[0;36m".data
  | .LOG_TRACE => "\x1b[0;38:2:255:0:127m".data
  | .LOG_DEBUG => "\x1b[0;2m".data
  | _ => "\x1b[0;37m".data

/-- Lines 135-143 of `logger.c`: `vsnprintf(message, 1024, fmt, args)`
followed by the truncation-marker loop.  `expanded` is the full expansion
of `fmt` with its arguments; `vsnprintf` stores its first
`1023` characters (NUL-terminating the buffer) and returns the length the
full expansion would have had, and when that return value reaches the
buffer size the loop overwrites indices `1020`, `1021`, `1022` with `'.'`. -/
def message_buffer (expanded : List Char) : List Char :=
  let message_size : Nat := 1024
  let message := expanded.take (message_size - 1)
  let should_write := expanded.length
  if message_size ≤ should_write then
    ((message.set (message_size - 4) '.').set (message_size - 3) '.').set
      (message_size - 2) '.'
  else
    message

/-- Model of `format_log_message` of `logger.c`, producing the colored and the raw
rendering.  `date` stands for the `strftime` output (including its
trailing space) and `thread` for the rendered `[main thread] ` /
`[thread: N] ` prefix; the C code computes both from the clock and
`gettid`, which the embedding takes as inputs.  Both `snprintf` calls
truncate to the output buffer capacity. -/
def format_log_message (st : LoggerState) (buffer_size : Nat)
    (level : log_level) (file : List Char) (line : Nat) (func : List Char)
    (date thread : List Char) (expanded : List Char) :
    List Char × List Char :=
  let date_buffer := if st.show_date then date else []
  let thread_buffer := if st.show_thread then thread else []
  let message := message_buffer expanded
  let location := "[".data ++ file ++ ":".data ++ (toString line).data
      ++ ":".data ++ func ++ "()] ".data
  let colored := (date_buffer ++ log_level_to_color level ++ "[".data
      ++ log_level_to_string level ++ "]".data ++ RESET ++ " ".data
      ++ location ++ thread_buffer ++ log_level_to_color level ++ message
      ++ RESET).take (buffer_size - 1)
  let raw := (date_buffer ++ "[".data ++ log_level_to_string level
      ++ "] ".data ++ location ++ thread_buffer ++ message).take
      (buffer_size - 1)
  (colored, raw)

/-- Concatenation `a ++ b ++ ...` over a list of lists, used to model the frame loop of
`log_backtrace`. -/
def concatMap (f : α → List β) : List α → List β
  | [] => []
  | x :: xs => f x ++ concatMap f xs

/-- glibc `backtrace(3)`: given the abstract call stack listed oldest
frame first (with the currently executing function, i.e. `log_backtrace`
itself, last), the buffer receives the frames most recent first, capped
at the 128 entries of `static void *buffer[128]`.  Each frame is
identified with the descriptive string `backtrace_symbols` renders for it
(which is a raw hex address when no symbol name can be resolved). -/
def backtrace (stack : List (List Char)) : List (List Char) :=
  stack.reverse.take 128

/-- One iteration of the frame loop of `log_backtrace` (lines 188-200 of
`logger.c`): behind the `if (symbols)` guard, the frame is printed to the
sink file and handed (truncated to the 512-byte `one` buffer) to the
callback. -/
def backtrace_frame_events (st : LoggerState) (symbols_ok : Bool)
    (sym : List Char) : List Event :=
  if symbols_ok then
    (match st.log_file with
     | some h => [Event.fileWrite h ("  ".data ++ sym)]
     | none => []) ++
    (if st.log_callback then
       let one := ("  ".data ++ sym).take (512 - 1)
       [Event.callbackCall .LOG_FATAL one one]
     else [])
  else []

/-- Model of `log_backtrace` of `logger.c` (lines 154-205).  `symbols` is the
buffer filled by `backtrace`; `symbols_ok` is whether `backtrace_symbols`
returned a non-NULL (hence `malloc`ed) array — on NULL the `if (symbols)`
guard inside the loop suppresses every emission, and `free(NULL)` is a
no-op.  `date` stands for the `strftime` output.  The frame loop starts
at index 1, skipping `buffer[0]` (the frame of `log_backtrace` itself). -/
def log_backtrace (st : LoggerState) (init_msg : Option (List Char))
    (date : List Char) (symbols : List (List Char)) (symbols_ok : Bool) :
    List Event :=
  (match init_msg with
   | some msg =>
     let init_date := if st.show_date then date else []
     let idx := init_date.length
     (match st.log_file with
      | some h =>
        [Event.fileWrite h (init_date ++ "[FATAL] ".data ++ msg)]
      | none => []) ++
     (if st.log_callback then
        let init_raw := init_date
            ++ ("[FATAL] ".data ++ msg).take (1024 - 1 - idx)
        let init_colored := init_date
            ++ (log_level_to_color .LOG_FATAL ++ "[FATAL]".data ++ RESET
                ++ " ".data ++ msg).take (1024 - 1 - idx)
        [Event.callbackCall .LOG_FATAL init_colored init_raw]
      else [])
   | none => []) ++
  (if symbols_ok then [Event.heapAlloc] else []) ++
  concatMap (backtrace_frame_events st symbols_ok) (symbols.drop 1) ++
  (if symbols_ok then [Event.heapFree] else [])

/-- Model of `log_message` of `logger.c` (lines 334-370).  `expanded` is the full
`printf`-expansion of `fmt` with the variadic arguments; `bt_symbols` and
`bt_symbols_ok` feed the `log_backtrace` call of the fatal path. -/
def log_message (st : LoggerState) (level : log_level) (file : List Char)
    (line : Nat) (func : List Char) (date thread : List Char)
    (expanded : List Char) (bt_symbols : List (List Char))
    (bt_symbols_ok : Bool) : List Event :=
  if level = .LOG_FULL ∨ level = .LOG_QUITE then []
  else if st.current_log_level.toNat < level.toNat then []
  else
    let fm := format_log_message st BUFFER_SIZE level file line func date
        thread expanded
    (if st.log_callback then [Event.callbackCall level fm.1 fm.2]
     else []) ++
    (match st.log_file with
     | some h => [Event.fileWrite h fm.2]
     | none => []) ++
    (if level = .LOG_FATAL then
       (if st.log_trace_on_fatal then
          log_backtrace st none date bt_symbols bt_symbols_ok
        else []) ++
       [Event.exitCall EXIT_FAILURE]
     else [])

/-- Model of `logger_set_log_level` of `logger.c`. -/
def logger_set_log_level (st : LoggerState) (level : log_level) :
    LoggerState :=
  { st with current_log_level := level }

/-- Model of `logger_set_log_level_from_string` of `logger.c`: an optional
`"LOG_"` prefix is stripped (`strncmp(log_level, "LOG_", 4) == 0`), then
the remainder is compared with `strcmp` against the eight names; on no
match the state is left unchanged. -/
def logger_set_log_level_from_string (st : LoggerState)
    (log_level_str : List Char) : LoggerState :=
  let lvl_str := if log_level_str.take 4 = "LOG_".data then
      log_level_str.drop 4
    else log_level_str
  if lvl_str = "FULL".data then
    { st with current_log_level := .LOG_FULL }
  else if lvl_str = "DEBUG".data then
    { st with current_log_level := .LOG_DEBUG }
  else if lvl_str = "TRACE".data then
    { st with current_log_level := .LOG_TRACE }
  else if lvl_str = "INFO".data then
    { st with current_log_level := .LOG_INFO }
  else if lvl_str = "WARN".data then
    { st with current_log_level := .LOG_WARN }
  else if lvl_str = "ERROR".data then
    { st with current_log_level := .LOG_ERROR }
  else if lvl_str = "FATAL".data then
    { st with current_log_level := .LOG_FATAL }
  else if lvl_str = "QUIET".data then
    { st with current_log_level := .LOG_QUITE }
  else st

/-- Model of `logger_set_log_level_from_env` of `logger.c`; `env_level` is the
result of `getenv("LOG_LEVEL")`, `none` when the variable is absent. -/
def logger_set_log_level_from_env (st : LoggerState)
    (env_level : Option (List Char)) : LoggerState :=
  match env_level with
  | some s => logger_set_log_level_from_string st s
  | none => st

/-- Model of `logger_close_file` of `logger.c`: closes the sink file when one is
installed, and is a no-op otherwise. -/
def logger_close_file (st : LoggerState) : LoggerState × List Event :=
  match st.log_file with
  | some h => ({ st with log_file := none }, [Event.closed h])
  | none => (st, [])

/-- Model of `logger_set_log_file` of `logger.c`: `fopen_result` is the outcome of
`fopen(filename, "a")` — `none` on failure, `some` a fresh handle on
success.  On failure it returns `false` with nothing changed; on success
it closes any previous sink file and installs the new handle. -/
def logger_set_log_file (st : LoggerState) (fopen_result : Option Nat) :
    Bool × LoggerState × List Event :=
  match fopen_result with
  | none => (false, st, [])
  | some file =>
    let closed := logger_close_file st
    (true, { closed.1 with log_file := some file }, closed.2)

/-- Model of `logger_set_log_fileno` of `logger.c`: unconditionally closes any
previous sink file, installs the given handle, and returns `true`. -/
def logger_set_log_fileno (st : LoggerState) (file : Nat) :
    Bool × LoggerState × List Event :=
  let closed := logger_close_file st
  (true, { closed.1 with log_file := some file }, closed.2)

/-- Model of `logger_set_callback` of `logger.c` (registration modelled by the
flag). -/
def logger_set_callback (st : LoggerState) (callback : Bool) :
    LoggerState :=
  { st with log_callback := callback }

/-- Model of `logger_get_log_level` of `logger.c`. -/
def logger_get_log_level (st : LoggerState) : log_level :=
  st.current_log_level

-- ---------- Observation helpers ---------- --

/-- The event writes a line to the sink file. -/
def is_file_write : Event → Bool
  | .fileWrite _ _ => true
  | _ => false

/-- The event invokes the registered callback. -/
def is_callback_call : Event → Bool
  | .callbackCall _ _ _ => true
  | _ => false

/-- The event exits the process with a nonzero status. -/
def is_failure_exit : Event → Bool
  | .exitCall code => !(code == 0)
  | _ => false

/-- The event allocates on the heap. -/
def is_heap_alloc : Event → Bool
  | .heapAlloc => true
  | _ => false

/-- The event frees heap memory. -/
def is_heap_free : Event → Bool
  | .heapFree => true
  | _ => false

/-- The line the event writes to file handle `h`, if any. -/
def file_line_on (h : Nat) : Event → Option (List Char)
  | .fileWrite h' text => if h' = h then some text else none
  | _ => none

/-- The event either is no file write or writes to handle `h`. -/
def stays_on_handle (h : Nat) : Event → Bool
  | .fileWrite h' _ => h' == h
  | _ => true

/-- Some event of the trace writes to the sink file. -/
def hits_file (evs : List Event) : Bool :=
  evs.any is_file_write

/-- Some event of the trace invokes the registered callback. -/
def hits_callback (evs : List Event) : Bool :=
  evs.any is_callback_call

/-- Some event of the trace exits the process with a nonzero status. -/
def exits_failure (evs : List Event) : Bool :=
  evs.any is_failure_exit

/-- Some event of the trace allocates on the heap. -/
def allocates (evs : List Event) : Bool :=
  evs.any is_heap_alloc

/-- Some event of the trace frees heap memory. -/
def deallocates (evs : List Event) : Bool :=
  evs.any is_heap_free

/-- The lines the trace writes to file handle `h`, in order. -/
def file_lines (evs : List Event) (h : Nat) : List (List Char) :=
  evs.filterMap (file_line_on h)

/-- Every file write of the trace goes to handle `h`. -/
def writes_only_to (evs : List Event) (h : Nat) : Bool :=
  evs.all (stays_on_handle h)

/-- The filter of `log_message` (lines 336-341 of `logger.c`): the record
is processed iff its level is neither `LOG_FULL` nor `LOG_QUITE` and does
not exceed the configured threshold. -/
def record_passes_filter (st : LoggerState) (level : log_level) : Bool :=
  if level = .LOG_FULL ∨ level = .LOG_QUITE then false
  else if st.current_log_level.toNat < level.toNat then false
  else true

-- ---------- General lemmas ---------- --

theorem concatMap_any_eq_false {α : Type} (p : Event → Bool)
    (f : α → List Event) (l : List α) (h : ∀ x, (f x).any p = false) :
    (concatMap f l).any p = false := by
  induction l with
  | nil => rfl
  | cons x xs ih => simp [concatMap, List.any_append, h x, ih]

theorem concatMap_all_eq_true {α : Type} (p : Event → Bool)
    (f : α → List Event) (l : List α) (h : ∀ x, (f x).all p = true) :
    (concatMap f l).all p = true := by
  induction l with
  | nil => rfl
  | cons x xs ih => simp [concatMap, List.all_append, h x, ih]

theorem backtrace_frame_events_any_callback_eq_false (st : LoggerState)
    (sok : Bool) (sym : List Char) (hcb : st.log_callback = false) :
    (backtrace_frame_events st sok sym).any is_callback_call = false := by
  cases sok <;> cases hf : st.log_file <;>
    simp [backtrace_frame_events, hcb, hf, is_callback_call]

theorem backtrace_frame_events_any_file_eq_false (st : LoggerState)
    (sok : Bool) (sym : List Char) (hf : st.log_file = none) :
    (backtrace_frame_events st sok sym).any is_file_write = false := by
  cases sok <;> cases hcb : st.log_callback <;>
    simp [backtrace_frame_events, hcb, hf, is_file_write]

theorem backtrace_frame_events_stays (st : LoggerState) (sok : Bool)
    (sym : List Char) (h0 : Nat) (hf : st.log_file = some h0) :
    (backtrace_frame_events st sok sym).all (stays_on_handle h0) = true := by
  cases sok <;> cases hcb : st.log_callback <;>
    simp [backtrace_frame_events, hcb, hf, stays_on_handle]

theorem log_backtrace_any_callback_eq_false (st : LoggerState)
    (init : Option (List Char)) (date : List Char)
    (syms : List (List Char)) (sok : Bool)
    (hcb : st.log_callback = false) :
    (log_backtrace st init date syms sok).any is_callback_call = false := by
  have hloop := concatMap_any_eq_false is_callback_call
    (backtrace_frame_events st sok) syms.tail
    (fun sym => backtrace_frame_events_any_callback_eq_false st sok sym hcb)
  cases init <;> cases sok <;> cases hf : st.log_file <;>
    simp [log_backtrace, List.any_append, hcb, hf, is_callback_call, hloop]

theorem log_backtrace_any_file_eq_false (st : LoggerState)
    (init : Option (List Char)) (date : List Char)
    (syms : List (List Char)) (sok : Bool) (hf : st.log_file = none) :
    (log_backtrace st init date syms sok).any is_file_write = false := by
  have hloop := concatMap_any_eq_false is_file_write
    (backtrace_frame_events st sok) syms.tail
    (fun sym => backtrace_frame_events_any_file_eq_false st sok sym hf)
  cases init <;> cases sok <;> cases hcb : st.log_callback <;>
    simp [log_backtrace, List.any_append, hcb, hf, is_file_write, hloop]

theorem log_backtrace_stays (st : LoggerState) (init : Option (List Char))
    (date : List Char) (syms : List (List Char)) (sok : Bool) (h0 : Nat)
    (hf : st.log_file = some h0) :
    (log_backtrace st init date syms sok).all (stays_on_handle h0)
      = true := by
  have hloop := concatMap_all_eq_true (stays_on_handle h0)
    (backtrace_frame_events st sok) syms.tail
    (fun sym => backtrace_frame_events_stays st sok sym h0 hf)
  cases init <;> cases sok <;> cases hcb : st.log_callback <;>
    simp [log_backtrace, List.all_append, hcb, hf, stays_on_handle, hloop]

theorem log_message_any_callback_eq_false (st : LoggerState)
    (level : log_level) (file : List Char) (line : Nat)
    (func date thread expanded : List Char) (syms : List (List Char))
    (sok : Bool) (hcb : st.log_callback = false) :
    (log_message st level file line func date thread expanded syms
      sok).any is_callback_call = false := by
  have hbt := log_backtrace_any_callback_eq_false st none date syms sok hcb
  by_cases h1 : level = .LOG_FULL ∨ level = .LOG_QUITE
  · unfold log_message
    rw [if_pos h1]
    rfl
  · by_cases h2 : st.current_log_level.toNat < level.toNat
    · unfold log_message
      rw [if_neg h1, if_pos h2]
      rfl
    · unfold log_message
      rw [if_neg h1, if_neg h2]
      cases hf : st.log_file <;>
        cases htr : st.log_trace_on_fatal <;>
          by_cases hfat : level = .LOG_FATAL <;>
            simp [List.any_append, hcb, hf, htr, hfat, is_callback_call,
              hbt]

theorem log_message_any_file_eq_false (st : LoggerState)
    (level : log_level) (file : List Char) (line : Nat)
    (func date thread expanded : List Char) (syms : List (List Char))
    (sok : Bool) (hf : st.log_file = none) :
    (log_message st level file line func date thread expanded syms
      sok).any is_file_write = false := by
  have hbt := log_backtrace_any_file_eq_false st none date syms sok hf
  by_cases h1 : level = .LOG_FULL ∨ level = .LOG_QUITE
  · unfold log_message
    rw [if_pos h1]
    rfl
  · by_cases h2 : st.current_log_level.toNat < level.toNat
    · unfold log_message
      rw [if_neg h1, if_pos h2]
      rfl
    · unfold log_message
      rw [if_neg h1, if_neg h2]
      cases hcb : st.log_callback <;>
        cases htr : st.log_trace_on_fatal <;>
          by_cases hfat : level = .LOG_FATAL <;>
            simp [List.any_append, hcb, hf, htr, hfat, is_file_write, hbt]

theorem log_message_stays (st : LoggerState) (level : log_level)
    (file : List Char) (line : Nat)
    (func date thread expanded : List Char) (syms : List (List Char))
    (sok : Bool) (h0 : Nat) (hf : st.log_file = some h0) :
    (log_message st level file line func date thread expanded syms
      sok).all (stays_on_handle h0) = true := by
  have hbt := log_backtrace_stays st none date syms sok h0 hf
  by_cases h1 : level = .LOG_FULL ∨ level = .LOG_QUITE
  · unfold log_message
    rw [if_pos h1]
    rfl
  · by_cases h2 : st.current_log_level.toNat < level.toNat
    · unfold log_message
      rw [if_neg h1, if_pos h2]
      rfl
    · unfold log_message
      rw [if_neg h1, if_neg h2]
      cases hcb : st.log_callback <;>
        cases htr : st.log_trace_on_fatal <;>
          by_cases hfat : level = .LOG_FATAL <;>
            simp [List.all_append, hcb, hf, htr, hfat, stays_on_handle,
              hbt]

theorem filterMap_eq_nil_of_all_stays (evs : List Event) (h h' : Nat)
    (hw : evs.all (stays_on_handle h) = true) (hne : h' ≠ h) :
    evs.filterMap (file_line_on h') = [] := by
  induction evs with
  | nil => rfl
  | cons e es ih =>
    rw [List.all_cons, Bool.and_eq_true] at hw
    rw [List.filterMap_cons]
    have he : file_line_on h' e = none := by
      cases e with
      | fileWrite hh tt =>
        have hhh : hh = h := by simpa [stays_on_handle] using hw.1
        subst hhh
        simp [file_line_on, Ne.symm hne]
      | callbackCall l c r => rfl
      | closed hh => rfl
      | exitCall c => rfl
      | heapAlloc => rfl
      | heapFree => rfl
    rw [he, ih hw.2]

-- ---------- Claims ---------- --

/-- Claim C1 (counterexample): the claim "a record at level L is emitted
iff L <= T or L is LOG_FATAL (fatal is never filtered, even when the
threshold is LOG_QUITE)" is false on the code: with the threshold at
`LOG_QUITE` and an active callback sink, a `LOG_FATAL` record produces no
events at all — the filter `level > current_log_level` runs before any
fatal handling and `LOG_FATAL = 1 > 0 = LOG_QUITE`. -/
theorem claim_C1_counterexample :
    (LoggerState.mk none true .LOG_QUITE true true true).log_callback
        = true
  ∧ log_message (LoggerState.mk none true .LOG_QUITE true true true)
      .LOG_FATAL "file.c".data 1 "main".data "".data "".data
      "boom".data [] true = []
  ∧ hits_callback
      (log_message (LoggerState.mk none true .LOG_QUITE true true true)
        .LOG_FATAL "file.c".data 1 "main".data "".data "".data
        "boom".data [] true) = false :=
  ⟨rfl, rfl, rfl⟩

/-- Claim C1 (amended): a `log_message` call at level L reaches the
callback sink iff a callback is registered and L passes the filter, and
reaches the file sink iff a sink file is installed and L passes the
filter, where passing the filter means L is neither `LOG_FULL` nor
`LOG_QUITE` and L <= T numerically — with no exception for `LOG_FATAL`. -/
theorem claim_C1 (st : LoggerState) (level : log_level)
    (file : List Char) (line : Nat)
    (func date thread expanded : List Char) (syms : List (List Char))
    (sok : Bool) :
    hits_callback
        (log_message st level file line func date thread expanded syms
          sok)
      = (st.log_callback && record_passes_filter st level)
  ∧ hits_file
        (log_message st level file line func date thread expanded syms
          sok)
      = (st.log_file.isSome && record_passes_filter st level)
  ∧ (record_passes_filter st level = true ↔
      (¬(level = .LOG_FULL ∨ level = .LOG_QUITE)
        ∧ level.toNat ≤ st.current_log_level.toNat)) := by
  refine ⟨?_, ?_, ?_⟩
  · by_cases h1 : level = .LOG_FULL ∨ level = .LOG_QUITE
    · unfold log_message record_passes_filter hits_callback
      rw [if_pos h1, if_pos h1]
      simp
    · by_cases h2 : st.current_log_level.toNat < level.toNat
      · unfold log_message record_passes_filter hits_callback
        rw [if_neg h1, if_neg h1, if_pos h2, if_pos h2]
        simp
      · cases hcb : st.log_callback
        · unfold hits_callback
          rw [log_message_any_callback_eq_false st level file line func
            date thread expanded syms sok hcb]
          simp
        · unfold log_message record_passes_filter hits_callback
          rw [if_neg h1, if_neg h1, if_neg h2, if_neg h2]
          simp [List.any_append, hcb, is_callback_call]
  · by_cases h1 : level = .LOG_FULL ∨ level = .LOG_QUITE
    · unfold log_message record_passes_filter hits_file
      rw [if_pos h1, if_pos h1]
      simp
    · by_cases h2 : st.current_log_level.toNat < level.toNat
      · unfold log_message record_passes_filter hits_file
        rw [if_neg h1, if_neg h1, if_pos h2, if_pos h2]
        simp
      · cases hf : st.log_file
        · unfold hits_file
          rw [log_message_any_file_eq_false st level file line func
            date thread expanded syms sok hf]
          simp
        · unfold log_message record_passes_filter hits_file
          rw [if_neg h1, if_neg h1, if_neg h2, if_neg h2]
          simp [List.any_append, hf, is_file_write]
  · unfold record_passes_filter
    by_cases h1 : level = .LOG_FULL ∨ level = .LOG_QUITE
    · rw [if_pos h1]
      simp only [Bool.false_eq_true, false_iff, not_and]
      intro hn
      exact absurd h1 hn
    · by_cases h2 : st.current_log_level.toNat < level.toNat
      · rw [if_neg h1, if_pos h2]
        simp only [Bool.false_eq_true, false_iff, not_and, not_le]
        intro _
        exact h2
      · rw [if_neg h1, if_neg h2]
        simp only [true_iff]
        exact ⟨h1, by omega⟩

/-- Claim C2 (counterexample): the claim "for every configured threshold,
a `log_message` call with level `LOG_FATAL` terminates the process with a
failure exit status" is false on the code: with the threshold at
`LOG_QUITE` the fatal record is filtered out at line 340 before the
`exit(EXIT_FAILURE)` at line 368 is reached, and the call returns
normally without any event. -/
theorem claim_C2_counterexample :
    exits_failure
      (log_message (LoggerState.mk none false .LOG_QUITE true true true)
        .LOG_FATAL "file.c".data 2 "main".data "".data "".data
        "crash".data [] true) = false :=
  rfl

/-- Claim C2 (amended): a `log_message` call with level `LOG_FATAL`
terminates the process with exit status `EXIT_FAILURE` iff the configured
threshold is not `LOG_QUITE`; when the threshold is `LOG_QUITE` the call
returns to the caller without terminating. -/
theorem claim_C2 (st : LoggerState) (file : List Char) (line : Nat)
    (func date thread expanded : List Char) (syms : List (List Char))
    (sok : Bool) :
    exits_failure
        (log_message st .LOG_FATAL file line func date thread expanded
          syms sok)
      = !(st.current_log_level == .LOG_QUITE) := by
  unfold log_message exits_failure
  cases hcl : st.current_log_level <;>
    simp [hcl, log_level.toNat, List.any_append, is_failure_exit,
      EXIT_FAILURE]

/-- Claim C4: for every string that does not match a level name after
optionally stripping a `"LOG_"` prefix (case-sensitively),
`logger_set_log_level_from_string` leaves the logger state — in
particular the current threshold — unchanged. -/
theorem claim_C4 (st : LoggerState) (s : List Char)
    (h : ¬ (if s.take 4 = "LOG_".data then s.drop 4 else s) ∈
        ["FULL".data, "DEBUG".data, "TRACE".data, "INFO".data,
         "WARN".data, "ERROR".data, "FATAL".data, "QUIET".data]) :
    logger_set_log_level_from_string st s = st := by
  simp only [List.mem_cons, List.not_mem_nil, or_false, not_or] at h
  obtain ⟨h1, h2, h3, h4, h5, h6, h7, h8⟩ := h
  unfold logger_set_log_level_from_string
  rw [if_neg h1, if_neg h2, if_neg h3, if_neg h4, if_neg h5, if_neg h6,
    if_neg h7, if_neg h8]

/-- Claim C4 witness: the invalid name "INVALID" leaves a concrete state
untouched. -/
theorem claim_C4_witness :
    (¬ (if ("INVALID".data).take 4 = "LOG_".data then
          ("INVALID".data).drop 4 else "INVALID".data) ∈
        ["FULL".data, "DEBUG".data, "TRACE".data, "INFO".data,
         "WARN".data, "ERROR".data, "FATAL".data, "QUIET".data])
  ∧ logger_set_log_level_from_string
      (LoggerState.mk none false .LOG_DEBUG true true true)
      "INVALID".data
      = LoggerState.mk none false .LOG_DEBUG true true true :=
  ⟨by decide,
   claim_C4 (LoggerState.mk none false .LOG_DEBUG true true true)
     "INVALID".data (by decide)⟩

/-- Claim C5: `logger_set_log_level_from_env` with `LOG_LEVEL` set to
"LOG_FATAL" makes `logger_get_log_level` return `LOG_FATAL`; each of the
eight names, with or without the `"LOG_"` prefix, maps to the
corresponding level; and when `LOG_LEVEL` is absent the state is
unchanged. -/
theorem claim_C5 (st : LoggerState) :
    logger_get_log_level
        (logger_set_log_level_from_env st (some "LOG_FATAL".data))
      = .LOG_FATAL
  ∧ logger_set_log_level_from_env st none = st
  ∧ logger_get_log_level
        (logger_set_log_level_from_env st (some "FULL".data))
      = .LOG_FULL
  ∧ logger_get_log_level
        (logger_set_log_level_from_env st (some "LOG_FULL".data))
      = .LOG_FULL
  ∧ logger_get_log_level
        (logger_set_log_level_from_env st (some "DEBUG".data))
      = .LOG_DEBUG
  ∧ logger_get_log_level
        (logger_set_log_level_from_env st (some "LOG_DEBUG".data))
      = .LOG_DEBUG
  ∧ logger_get_log_level
        (logger_set_log_level_from_env st (some "TRACE".data))
      = .LOG_TRACE
  ∧ logger_get_log_level
        (logger_set_log_level_from_env st (some "LOG_TRACE".data))
      = .LOG_TRACE
  ∧ logger_get_log_level
        (logger_set_log_level_from_env st (some "INFO".data))
      = .LOG_INFO
  ∧ logger_get_log_level
        (logger_set_log_level_from_env st (some "LOG_INFO".data))
      = .LOG_INFO
  ∧ logger_get_log_level
        (logger_set_log_level_from_env st (some "WARN".data))
      = .LOG_WARN
  ∧ logger_get_log_level
        (logger_set_log_level_from_env st (some "LOG_WARN".data))
      = .LOG_WARN
  ∧ logger_get_log_level
        (logger_set_log_level_from_env st (some "ERROR".data))
      = .LOG_ERROR
  ∧ logger_get_log_level
        (logger_set_log_level_from_env st (some "LOG_ERROR".data))
      = .LOG_ERROR
  ∧ logger_get_log_level
        (logger_set_log_level_from_env st (some "FATAL".data))
      = .LOG_FATAL
  ∧ logger_get_log_level
        (logger_set_log_level_from_env st (some "QUIET".data))
      = .LOG_QUITE
  ∧ logger_get_log_level
        (logger_set_log_level_from_env st (some "LOG_QUIET".data))
      = .LOG_QUITE :=
  ⟨rfl, rfl, rfl, rfl, rfl, rfl, rfl, rfl, rfl, rfl, rfl, rfl, rfl, rfl,
   rfl, rfl, rfl⟩

/-- Claim C10: `logger_set_log_fileno` returns `true` for every handle
passed to it, unconditionally closes any previously installed sink file,
and installs the given handle as the new sink. -/
theorem claim_C10 (st : LoggerState) (file : Nat) :
    (logger_set_log_fileno st file).1 = true
  ∧ (logger_set_log_fileno st file).2.1
      = { st with log_file := some file }
  ∧ (logger_set_log_fileno st file).2.2
      = (match st.log_file with
         | some h => [Event.closed h]
         | none => []) := by
  cases hf : st.log_file <;>
    simp [logger_set_log_fileno, logger_close_file, hf]

/-- Claim C3: `logger_set_log_file` on an unopenable path (`fopen`
fails) returns `false` and leaves the state — including the installed
sink file — untouched, with no close event; on success with a sink file
already installed it returns `true`, closes exactly the previous file,
installs the new one, and every file write of a subsequent
`log_message` goes to the new handle only, never the old one. -/
theorem claim_C3 (st : LoggerState) (old new : Nat) (level : log_level)
    (file : List Char) (line : Nat)
    (func date thread expanded : List Char) (syms : List (List Char))
    (sok : Bool) (hold : st.log_file = some old) (hne : new ≠ old) :
    logger_set_log_file st none = (false, st, [])
  ∧ (logger_set_log_file st (some new)).1 = true
  ∧ (logger_set_log_file st (some new)).2.1
      = { st with log_file := some new }
  ∧ (logger_set_log_file st (some new)).2.2 = [Event.closed old]
  ∧ writes_only_to
      (log_message { st with log_file := some new } level file line func
        date thread expanded syms sok) new = true
  ∧ file_lines
      (log_message { st with log_file := some new } level file line func
        date thread expanded syms sok) old = [] := by
  have hstays := log_message_stays { st with log_file := some new }
    level file line func date thread expanded syms sok new rfl
  refine ⟨rfl, ?_, ?_, ?_, hstays, ?_⟩
  · simp [logger_set_log_file, logger_close_file, hold]
  · simp [logger_set_log_file, logger_close_file, hold]
  · simp [logger_set_log_file, logger_close_file, hold]
  · exact filterMap_eq_nil_of_all_stays _ new old hstays (Ne.symm hne)

/-- Claim C3 witness: at a concrete state with sink handle 0, switching
to handle 1 succeeds, closes handle 0, and a subsequent record lands
only on handle 1. -/
theorem claim_C3_witness :
    (logger_set_log_file
        (LoggerState.mk (some 0) false .LOG_INFO true true true)
        (some 1)).1 = true
  ∧ file_lines
      (log_message
        (LoggerState.mk (some 1) false .LOG_INFO true true true)
        .LOG_INFO "f.c".data 3 "main".data "".data "".data "msg".data
        [] true) 0 = [] :=
  ⟨(claim_C3 (LoggerState.mk (some 0) false .LOG_INFO true true true)
      0 1 .LOG_INFO "f.c".data 3 "main".data "".data "".data "msg".data
      [] true rfl (by decide)).2.1,
   (claim_C3 (LoggerState.mk (some 0) false .LOG_INFO true true true)
      0 1 .LOG_INFO "f.c".data 3 "main".data "".data "".data "msg".data
      [] true rfl (by decide)).2.2.2.2.2⟩

theorem set_three_dots (n : Nat) (l : List Char) (hl : l.length = n + 3) :
    ((l.set n '.').set (n + 1) '.').set (n + 2) '.'
      = l.take n ++ ['.', '.', '.'] := by
  induction n generalizing l with
  | zero =>
    cases l with
    | nil => simp at hl
    | cons a l1 =>
      cases l1 with
      | nil => simp at hl
      | cons b l2 =>
        cases l2 with
        | nil => simp at hl
        | cons c l3 =>
          cases l3 with
          | cons d l4 =>
            exfalso
            simp [List.length_cons] at hl
          | nil => rfl
  | succ n ih =>
    cases l with
    | nil => simp at hl
    | cons x xs =>
      have hxs : xs.length = n + 3 := by
        simpa using hl
      simp only [List.set_cons_succ, List.take_succ_cons]
      rw [ih xs hxs]
      rfl

/-- Claim C6: when the expansion of the format string exceeds the
1024-byte internal `message` buffer, the stored message is the truncated
expansion with the last three characters before the limit replaced by
`...`, the buffer capacity is never exceeded, and the record is still
emitted to the sink file (not dropped) whenever its level passes the
filter. -/
theorem claim_C6 (expanded : List Char) (h : 1024 ≤ expanded.length)
    (st : LoggerState) (level : log_level) (file : List Char)
    (line : Nat) (func date thread : List Char)
    (syms : List (List Char)) (sok : Bool) (h0 : Nat)
    (hf : st.log_file = some h0)
    (h1 : ¬(level = .LOG_FULL ∨ level = .LOG_QUITE))
    (h2 : level.toNat ≤ st.current_log_level.toNat) :
    message_buffer expanded = expanded.take 1020 ++ ['.', '.', '.']
  ∧ (message_buffer expanded).length < 1024
  ∧ hits_file (log_message st level file line func date thread expanded
      syms sok) = true := by
  have hm : (expanded.take 1023).length = 1020 + 3 := by
    simp [List.length_take]
    omega
  have hpart1 : message_buffer expanded
      = expanded.take 1020 ++ ['.', '.', '.'] := by
    unfold message_buffer
    rw [if_pos (by omega : (1024 : Nat) ≤ expanded.length)]
    have hset := set_three_dots 1020 (expanded.take 1023) hm
    norm_num at hset ⊢
    rw [hset, List.take_take]
    congr 2
  refine ⟨hpart1, ?_, ?_⟩
  · rw [hpart1]
    rw [List.length_append, List.length_take]
    simp only [List.length_cons, List.length_nil]
    omega
  · unfold log_message hits_file
    rw [if_neg h1,
      if_neg (by omega : ¬ st.current_log_level.toNat < level.toNat)]
    simp [List.any_append, hf, is_file_write]

/-- Claim C6 witness: a 1024-character expansion is truncated to its
first 1020 characters followed by `...`, stays within the buffer, and is
still written to the sink file. -/
theorem claim_C6_witness :
    1024 ≤ (List.replicate 1024 'A').length
  ∧ (message_buffer (List.replicate 1024 'A')
        = (List.replicate 1024 'A').take 1020 ++ ['.', '.', '.']
    ∧ (message_buffer (List.replicate 1024 'A')).length < 1024
    ∧ hits_file
        (log_message (LoggerState.mk (some 2) false .LOG_INFO true true
          true) .LOG_INFO "f.c".data 4 "main".data "".data "".data
          (List.replicate 1024 'A') [] true) = true) :=
  ⟨by norm_num [List.length_replicate],
   claim_C6 (List.replicate 1024 'A') (by norm_num [List.length_replicate])
     (LoggerState.mk (some 2) false .LOG_INFO true true true) .LOG_INFO
     "f.c".data 4 "main".data "".data "".data [] true 2 rfl (by decide)
     (by decide)⟩

theorem drop_one_reverse {α : Type} (l : List α) :
    l.reverse.drop 1 = l.dropLast.reverse := by
  cases hl : l.reverse with
  | nil =>
    have hnil : l = [] := by
      simpa using congrArg List.reverse hl
    subst hnil
    rfl
  | cons x xs =>
    have hl2 : l = xs.reverse ++ [x] := by
      simpa using congrArg List.reverse hl
    subst hl2
    simp [List.dropLast_concat]

theorem file_lines_concatMap_frames (st : LoggerState) (h0 : Nat)
    (hf : st.log_file = some h0) (l : List (List Char)) :
    (concatMap (backtrace_frame_events st true) l).filterMap
        (file_line_on h0)
      = l.map (fun sym => "  ".data ++ sym) := by
  induction l with
  | nil => rfl
  | cons x xs ih =>
    rw [concatMap, List.filterMap_append, ih]
    cases hcb : st.log_callback <;>
      simp [backtrace_frame_events, hf, hcb, file_line_on]

theorem file_lines_log_backtrace (st : LoggerState) (h0 : Nat)
    (hf : st.log_file = some h0) (date : List Char)
    (syms : List (List Char)) :
    file_lines (log_backtrace st none date syms true) h0
      = (syms.drop 1).map (fun sym => "  ".data ++ sym) := by
  unfold file_lines log_backtrace
  rw [List.filterMap_append, List.filterMap_append,
    List.filterMap_append]
  rw [file_lines_concatMap_frames st h0 hf (syms.drop 1)]
  simp [file_line_on]

/-- Claim C7 (counterexample): the claim that backtrace frames are
emitted oldest frame first is false on the code: for the call stack
`main → foo → log_backtrace` (oldest first), glibc `backtrace` fills the
buffer most recent frame first, and the emission loop walks it upward
from index 1, so the sink file receives `  foo` then `  main` — the
reverse of oldest-first order. -/
theorem claim_C7_counterexample :
    file_lines
        (log_backtrace
          (LoggerState.mk (some 0) false .LOG_INFO false false true)
          none "".data
          (backtrace ["main".data, "foo".data, "log_backtrace".data])
          true) 0
      = ["  foo".data, "  main".data]
  ∧ ¬ file_lines
        (log_backtrace
          (LoggerState.mk (some 0) false .LOG_INFO false false true)
          none "".data
          (backtrace ["main".data, "foo".data, "log_backtrace".data])
          true) 0
      = ["  main".data, "  foo".data] :=
  ⟨by decide, by decide⟩

/-- Claim C7 (amended): during backtrace emission on the fatal path,
every captured frame is emitted as one line to the sink file in the
order produced by `backtrace` — most recent frame first — with the
buffer's first entry (the handler's own frame) skipped; equivalently,
the emitted frames are the call stack minus the handler frame in
reverse-chronological (newest-first, not oldest-first) order. -/
theorem claim_C7 (st : LoggerState) (h0 : Nat) (date : List Char)
    (stack : List (List Char)) (hf : st.log_file = some h0)
    (hlen : stack.length ≤ 128) :
    file_lines (log_backtrace st none date (backtrace stack) true) h0
      = ((backtrace stack).drop 1).map (fun sym => "  ".data ++ sym)
  ∧ (backtrace stack).drop 1 = stack.dropLast.reverse := by
  have hb : backtrace stack = stack.reverse := by
    unfold backtrace
    exact List.take_of_length_le (by simpa using hlen)
  refine ⟨file_lines_log_backtrace st h0 hf date (backtrace stack), ?_⟩
  rw [hb, drop_one_reverse]

/-- Claim C7 witness: a concrete four-frame stack is emitted newest
frame first with the handler frame skipped. -/
theorem claim_C7_witness :
    (LoggerState.mk (some 5) false .LOG_INFO false false
        true).log_file = some 5
  ∧ ["a".data, "b".data, "c".data, "d".data].length ≤ 128
  ∧ file_lines
        (log_backtrace
          (LoggerState.mk (some 5) false .LOG_INFO false false true)
          none "".data
          (backtrace ["a".data, "b".data, "c".data, "d".data]) true) 5
      = ((backtrace ["a".data, "b".data, "c".data, "d".data]).drop
          1).map (fun sym => "  ".data ++ sym)
  ∧ (backtrace ["a".data, "b".data, "c".data, "d".data]).drop 1
      = (["a".data, "b".data, "c".data, "d".data]).dropLast.reverse :=
  ⟨rfl, by decide,
   (claim_C7 (LoggerState.mk (some 5) false .LOG_INFO false false true)
     5 "".data ["a".data, "b".data, "c".data, "d".data] rfl
     (by decide)).1,
   (claim_C7 (LoggerState.mk (some 5) false .LOG_INFO false false true)
     5 "".data ["a".data, "b".data, "c".data, "d".data] rfl
     (by decide)).2⟩

theorem concatMap_eq_nil {α : Type} (f : α → List Event) (l : List α)
    (h : ∀ x, f x = []) : concatMap f l = [] := by
  induction l with
  | nil => rfl
  | cons x xs ih => simp [concatMap, h x, ih]

/-- Claim C8 (counterexample): the claim that on symbol-resolution
failure the logger still emits each captured frame as an unresolved raw
address is false on the code: when `backtrace_symbols` returns NULL, the
`if (symbols)` guard inside the loop suppresses every emission, so a
nonempty captured stack produces no events at all — with both a sink
file and a callback active. -/
theorem claim_C8_counterexample :
    (backtrace ["main".data, "bar".data, "handler".data]).drop 1 ≠ []
  ∧ log_backtrace
      (LoggerState.mk (some 3) true .LOG_INFO false false true) none
      "".data (backtrace ["main".data, "bar".data, "handler".data])
      false = [] :=
  ⟨by decide, rfl⟩

/-- Claim C8 (amended): when `backtrace_symbols` fails (returns NULL) on
the fatal-log path, `log_backtrace` emits nothing at all — the backtrace
is silently skipped, with no raw-address fallback.  (When it succeeds,
frames whose symbols cannot be resolved are still emitted, because the
success array itself carries a raw-address string per frame.) -/
theorem claim_C8 (st : LoggerState) (date : List Char)
    (syms : List (List Char)) :
    log_backtrace st none date syms false = [] := by
  have hnil : ∀ l : List (List Char),
      concatMap (backtrace_frame_events st false) l = [] :=
    fun l => concatMap_eq_nil (backtrace_frame_events st false) l
      (fun x => by simp [backtrace_frame_events])
  unfold log_backtrace
  simp [hnil]

theorem log_backtrace_any_alloc_eq_true (st : LoggerState)
    (init : Option (List Char)) (date : List Char)
    (syms : List (List Char)) :
    (log_backtrace st init date syms true).any is_heap_alloc = true := by
  cases init <;> cases hf : st.log_file <;>
    cases hcb : st.log_callback <;>
      simp [log_backtrace, List.any_append, hf, hcb, is_heap_alloc]

theorem log_backtrace_any_free_eq_true (st : LoggerState)
    (init : Option (List Char)) (date : List Char)
    (syms : List (List Char)) :
    (log_backtrace st init date syms true).any is_heap_free = true := by
  cases init <;> cases hf : st.log_file <;>
    cases hcb : st.log_callback <;>
      simp [log_backtrace, List.any_append, hf, hcb, is_heap_free]

/-- Claim C9 (counterexample): the claim that the fatal path performs no
heap allocation is false on the code: a `LOG_FATAL` record whose
backtrace is taken calls `backtrace_symbols`, whose result array is
`malloc`ed, and then frees it — so the fatal path both allocates and
deallocates on the heap. -/
theorem claim_C9_counterexample :
    allocates
      (log_message
        (LoggerState.mk (some 4) false .LOG_INFO true true true)
        .LOG_FATAL "file.c".data 7 "main".data "".data "".data
        "fatal".data ["handler".data, "caller".data] true) = true
  ∧ deallocates
      (log_message
        (LoggerState.mk (some 4) false .LOG_INFO true true true)
        .LOG_FATAL "file.c".data 7 "main".data "".data "".data
        "fatal".data ["handler".data, "caller".data] true) = true :=
  ⟨by decide, by decide⟩

/-- Claim C9 (amended): the fatal path's own message and frame buffers
are static and fixed-size, but whenever a fatal record passes the filter
with backtrace logging enabled and `backtrace_symbols` succeeds, the
call heap-allocates the symbol array and frees it before exiting — heap
allocation and deallocation do occur on the fatal path. -/
theorem claim_C9 (st : LoggerState) (file : List Char) (line : Nat)
    (func date thread expanded : List Char) (syms : List (List Char))
    (htr : st.log_trace_on_fatal = true)
    (hne : st.current_log_level ≠ .LOG_QUITE) :
    allocates
        (log_message st .LOG_FATAL file line func date thread expanded
          syms true) = true
  ∧ deallocates
        (log_message st .LOG_FATAL file line func date thread expanded
          syms true) = true := by
  have h1 : ¬((.LOG_FATAL : log_level) = .LOG_FULL
      ∨ (.LOG_FATAL : log_level) = .LOG_QUITE) := by decide
  have h2 : ¬ st.current_log_level.toNat
      < log_level.toNat .LOG_FATAL := by
    cases hcl : st.current_log_level <;>
      first
        | exact absurd hcl hne
        | simp [log_level.toNat]
  constructor
  · unfold allocates log_message
    rw [if_neg h1, if_neg h2]
    simp [List.any_append, htr, log_backtrace_any_alloc_eq_true]
  · unfold deallocates log_message
    rw [if_neg h1, if_neg h2]
    simp [List.any_append, htr, log_backtrace_any_free_eq_true]

/-- Claim C9 witness: at a concrete state with backtrace-on-fatal
enabled and threshold `LOG_ERROR`, a fatal record allocates and frees on
the heap. -/
theorem claim_C9_witness :
    (LoggerState.mk none true .LOG_ERROR true true
        true).log_trace_on_fatal = true
  ∧ (LoggerState.mk none true .LOG_ERROR true true
        true).current_log_level ≠ .LOG_QUITE
  ∧ allocates
        (log_message (LoggerState.mk none true .LOG_ERROR true true
          true) .LOG_FATAL "g.c".data 9 "f".data "".data "".data
          "oops".data ["x".data, "y".data] true) = true
  ∧ deallocates
        (log_message (LoggerState.mk none true .LOG_ERROR true true
          true) .LOG_FATAL "g.c".data 9 "f".data "".data "".data
          "oops".data ["x".data, "y".data] true) = true :=
  ⟨rfl, by decide,
   (claim_C9 (LoggerState.mk none true .LOG_ERROR true true true)
     "g.c".data 9 "f".data "".data "".data "oops".data
     ["x".data, "y".data] rfl (by decide)).1,
   (claim_C9 (LoggerState.mk none true .LOG_ERROR true true true)
     "g.c".data 9 "f".data "".data "".data "oops".data
     ["x".data, "y".data] rfl (by decide)).2⟩
